import Mathlib

/-!
Verification of the STM32 ADC (v2) driver, `src/embassy-stm32/src/adc/v2.rs`.

This file shallowly embeds the driver: pure helpers become Lean functions on
`Nat`, the register block becomes an explicit record `AdcRegs` with each
mutating driver call a state-transition function, and fallible code (Rust
panics: failed assertions, out-of-range channel lookups, arithmetic overflow
or division by zero on `u32`/`usize`) returns `Option`.

Machine arithmetic convention: `u32`/`usize` operations are modelled over
`Nat` with Rust's checked semantics — an operation whose result does not fit
the 32-bit range (or a division by zero) is a panic, embedded as `none`; the
bound `2^32` appears explicitly wherever an overflow is reachable.

Several small items referenced by v2.rs live elsewhere in the repository
(`adc/mod.rs`, the rcc module) and are not part of the sources under
verification; each such item is defined here from the specification and its
doc comment starts with `Modelled from the spec:`.
-/

namespace AdcV2

/-- `ADC_MAX` (v2.rs:13): `(1 << 12) - 1 = 4095`, the full-scale 12-bit code. -/
def ADC_MAX : Nat := 2 ^ 12 - 1

/-- `Calibration::CALIBRATION_UV` (v2.rs:54): 3,000,000 µV. -/
def CALIBRATION_UV : Nat := 3000000

/-- `Vref::calibrated_value` (v2.rs:34-36): the code vref would read if vdda
were exactly 3000 mV; always `ADC_MAX`. -/
def Vref.calibrated_value : Nat := ADC_MAX

/-- `Calibration` (v2.rs:47-50): a pair of `u16` codes. -/
structure Calibration where
  vref_cal : Nat
  vref_val : Nat

/-- The first `Nat` outside the `u32` range; used for overflow checks. -/
def u32Bound : Nat := 2 ^ 32

/-- `Calibration::vdda_uv` (v2.rs:57-59):
`(CALIBRATION_UV * vref_cal) / vref_val` in `u32` arithmetic.  The
multiplication is checked for 32-bit overflow (Rust panics on it under
overflow checks; without them it wraps — either way the documented quotient
is not produced), and division by zero is a panic. -/
def Calibration.vdda_uv (c : Calibration) : Option Nat :=
  if u32Bound ≤ CALIBRATION_UV * c.vref_cal then none
  else if c.vref_val = 0 then none
  else some (CALIBRATION_UV * c.vref_cal / c.vref_val)

/-- `Resolution` (adc/mod.rs, variants as matched in v2.rs:345-350). -/
inductive Resolution
  | TwelveBit
  | TenBit
  | EightBit
  | SixBit
deriving DecidableEq

/-- Modelled from the spec: `Resolution::to_max_count` lives in `adc/mod.rs`,
outside the sources under verification; the spec gives each resolution "a
maximum code (2^bits − 1)". -/
def Resolution.to_max_count : Resolution → Nat
  | .TwelveBit => 2 ^ 12 - 1
  | .TenBit => 2 ^ 10 - 1
  | .EightBit => 2 ^ 8 - 1
  | .SixBit => 2 ^ 6 - 1

/-- `Calibration::cal_uv` (v2.rs:67-69):
`(vdda_uv() / resolution.to_max_count()) * raw` in `u32` arithmetic — the
division happens first.  The final multiplication is checked for overflow. -/
def Calibration.cal_uv (c : Calibration) (raw : Nat) (res : Resolution) : Option Nat :=
  match c.vdda_uv with
  | none => none
  | some v =>
    if u32Bound ≤ v / res.to_max_count * raw then none
    else some (v / res.to_max_count * raw)

/-- `Prescaler` (v2.rs:119-124). -/
inductive Prescaler
  | Div2
  | Div4
  | Div6
  | Div8
deriving DecidableEq

/-- The numeric divisor each `Prescaler` variant stands for. -/
def Prescaler.divisor : Prescaler → Nat
  | .Div2 => 2
  | .Div4 => 4
  | .Div6 => 6
  | .Div8 => 8

/-- `MAX_FREQUENCY` (v2.rs:132-133): 36 MHz on the non-F2 variants. -/
def MAX_FREQUENCY : Nat := 36000000

/-- `Prescaler::from_pclk2` (v2.rs:127-142): matches on
`raw_div = freq / MAX_FREQUENCY`; ranges `0..=1`, `2..=3`, `4..=5`, `6..=7`
select Div2/Div4/Div6/Div8 and anything larger panics (`none`). -/
def Prescaler.from_pclk2 (freq : Nat) : Option Prescaler :=
  let raw_div := freq / MAX_FREQUENCY
  if raw_div ≤ 1 then some .Div2
  else if raw_div ≤ 3 then some .Div4
  else if raw_div ≤ 5 then some .Div6
  else if raw_div ≤ 7 then some .Div8
  else none

/-- Threshold reading of the prescaler selection, used to state the amended
form of the selection rule: the smallest divisor `d` with `freq < d * max`,
panic when `freq ≥ 8 * max`. -/
def prescalerSpec (freq : Nat) : Option Prescaler :=
  if freq < 2 * MAX_FREQUENCY then some .Div2
  else if freq < 4 * MAX_FREQUENCY then some .Div4
  else if freq < 6 * MAX_FREQUENCY then some .Div6
  else if freq < 8 * MAX_FREQUENCY then some .Div8
  else none

/-- `SampleTime` (adc/mod.rs, variants as matched in v2.rs:353-364). -/
inductive SampleTime
  | Cycles3
  | Cycles15
  | Cycles28
  | Cycles56
  | Cycles84
  | Cycles112
  | Cycles144
  | Cycles480
deriving DecidableEq

/-- `get_res_clks` (v2.rs:344-351): conversion-overhead clocks. -/
def get_res_clks : Resolution → Nat
  | .TwelveBit => 12
  | .TenBit => 11
  | .EightBit => 9
  | .SixBit => 7

/-- `get_sample_time_clks` (v2.rs:353-364): sample-phase clocks. -/
def get_sample_time_clks : SampleTime → Nat
  | .Cycles3 => 3
  | .Cycles15 => 15
  | .Cycles28 => 28
  | .Cycles56 => 56
  | .Cycles84 => 84
  | .Cycles112 => 112
  | .Cycles144 => 144
  | .Cycles480 => 480

/-- Modelled from the spec: `Self::freq()` is defined outside the sources
under verification.  v2.rs:10 fixes `ADC_FREQ = crate::rcc::HSI_FREQ`, the
internal 16 MHz oscillator of this chip family, and the spec's timing
formulas evaluate at this ADC clock rate. -/
def ADC_FREQ : Nat := 16000000

/-- `sample_time_for_us` (v2.rs:366-380).  The caller's resolution argument
stands for the peripheral's current resolution (the `self.resolution()`
register read).  `us * freq` is a `u32` product, checked; the subtraction is
Rust `saturating_sub`, which is `Nat` subtraction. -/
def sample_time_for_us (res : Resolution) (us : Nat) : Option SampleTime :=
  if u32Bound ≤ us * ADC_FREQ then none
  else
    let us_clks := us * ADC_FREQ / 1000000
    let clks := us_clks - get_res_clks res
    some (if clks ≤ 3 then .Cycles3
      else if clks ≤ 15 then .Cycles15
      else if clks ≤ 28 then .Cycles28
      else if clks ≤ 56 then .Cycles56
      else if clks ≤ 84 then .Cycles84
      else if clks ≤ 112 then .Cycles112
      else if clks ≤ 144 then .Cycles144
      else .Cycles480)

/-- `us_for_cfg` (v2.rs:382-386): total clocks at the ADC clock rate, in µs.
The product is at most `492 * 10^6 < 2^32`, so no overflow is reachable. -/
def us_for_cfg (res : Resolution) (st : SampleTime) : Nat :=
  (get_res_clks res + get_sample_time_clks st) * 1000000 / ADC_FREQ

/-- `VrefInt::channel` (v2.rs:27-29). -/
def VrefInt.channel : Nat := 17

/-- `Vbat::channel` (v2.rs:113-116). -/
def Vbat.channel : Nat := 18

/-- `Temperature::channel` (v2.rs:86-94), non-F2/F40/F41 branch. -/
def Temperature.channel : Nat := 18

/-- The ADC register block, restricted to the state the driver touches
(spec §6): cr1 bits (SCAN, DISCEN, EOCIE) and the RES field, cr2 bits
(ADON, SWSTART, CONT, DMA, DDS, EOCS), the status bits (STRT, EOC), the
sequence-length field `l` of sqr1, the three banked sequence-slot arrays,
and the two banked sample-time arrays.  The two-valued hardware enums DDS
and EOCS are carried as "is continuous" / "is each-conversion" booleans;
reset value is false for every bit. -/
structure AdcRegs where
  adon : Bool
  swstart : Bool
  cont : Bool
  dma : Bool
  dds_continuous : Bool
  eocs_each : Bool
  scan : Bool
  discen : Bool
  eocie : Bool
  res : Resolution
  strt : Bool
  eoc : Bool
  l : Nat
  sqr1_sq : Nat → Nat
  sqr2_sq : Nat → Nat
  sqr3_sq : Nat → Nat
  smpr1 : Nat → SampleTime
  smpr2 : Nat → SampleTime

/-- A concrete register state: the reset state of the modelled block. -/
def initRegs : AdcRegs where
  adon := false
  swstart := false
  cont := false
  dma := false
  dds_continuous := false
  eocs_each := false
  scan := false
  discen := false
  eocie := false
  res := .TwelveBit
  strt := false
  eoc := false
  l := 0
  sqr1_sq := fun _ => 0
  sqr2_sq := fun _ => 0
  sqr3_sq := fun _ => 0
  smpr1 := fun _ => .Cycles3
  smpr2 := fun _ => .Cycles3

/-- Modelled from the spec: `Self::is_on()` is defined outside the sources
under verification; the spec reads it as "whether the peripheral is
currently powered on", the enable (ADON) bit. -/
def is_on (s : AdcRegs) : Bool := s.adon

/-- Modelled from the spec: `start_adc` ("power it back on") sets ADON. -/
def start_adc (s : AdcRegs) : AdcRegs := { s with adon := true }

/-- Modelled from the spec: `stop_adc` ("power it off") clears ADON. -/
def stop_adc (s : AdcRegs) : AdcRegs := { s with adon := false }

/-- `Adc::set_channel_sample_time` (v2.rs:239-246): channels 0-9 go to the
smpr2 bank at index `ch`, the rest to smpr1 at index `ch - 10`. -/
def set_channel_sample_time (ch : Nat) (st : SampleTime) (s : AdcRegs) : AdcRegs :=
  if ch ≤ 9 then { s with smpr2 := Function.update s.smpr2 ch st }
  else { s with smpr1 := Function.update s.smpr1 (ch - 10) st }

/-- `Adc::set_channels_sample_time` (v2.rs:248-255): the per-channel write,
folded over the list. -/
def set_channels_sample_time (chs : List Nat) (st : SampleTime) (s : AdcRegs) : AdcRegs :=
  chs.foldl (fun acc c => set_channel_sample_time c st acc) s

/-- `Adc::get_channel_sample_time` (v2.rs:257-264): channels 0-9 read the
smpr2 bank, 10-16 read smpr1; any other id hits
`panic!("Invalid channel to sample")`. -/
def get_channel_sample_time (ch : Nat) (s : AdcRegs) : Option SampleTime :=
  if ch ≤ 9 then some (s.smpr2 ch)
  else if ch ≤ 16 then some (s.smpr1 (ch - 10))
  else none

/-- `Adc::set_sample_time` (v2.rs:214-234): no-op when the programmed
duration already equals the requested one; otherwise the peripheral is
stopped if it was on, the banked write is performed, and the prior power
state is restored.  The initial `get_channel_sample_time` read panics for
channels outside 0-16, which aborts the whole call. -/
def set_sample_time (ch : Nat) (st : SampleTime) (s : AdcRegs) : Option AdcRegs :=
  match get_channel_sample_time ch s with
  | none => none
  | some cur =>
    if cur = st then some s
    else
      let was_on := is_on s
      let s1 := if was_on then stop_adc s else s
      let s2 := set_channel_sample_time ch st s1
      some (if was_on then start_adc s2 else s2)

/-- One `set_sq` slot write into the sqr3 bank (sequence slots 1-6, field
indices 0-5).  The register layer bounds each bank's slot index (spec §6:
three banked sequence registers of 6/6/4 slots); an out-of-range index is
a panic. -/
def sqr3_set_sq (i ch : Nat) (s : AdcRegs) : Option AdcRegs :=
  if i < 6 then some { s with sqr3_sq := Function.update s.sqr3_sq i ch } else none

/-- One `set_sq` slot write into the sqr2 bank (sequence slots 7-12, field
indices 0-5); an out-of-range index is a register-layer panic. -/
def sqr2_set_sq (i ch : Nat) (s : AdcRegs) : Option AdcRegs :=
  if i < 6 then some { s with sqr2_sq := Function.update s.sqr2_sq i ch } else none

/-- One `set_sq` slot write into sqr1's slot fields (sequence slots 13-16,
field indices 0-3); an out-of-range index is a register-layer panic. -/
def sqr1_set_sq (i ch : Nat) (s : AdcRegs) : Option AdcRegs :=
  if i < 4 then some { s with sqr1_sq := Function.update s.sqr1_sq i ch } else none

/-- `Adc::set_sample_sequence` (v2.rs:265-317).  `config::Sequence` lives in
adc/mod.rs, outside the sources under verification; modelled from the spec
as the 1-based position `p` (One..Sixteen), the hardware length field `l`
holding `position − 1` (zero-based encoding, spec §4.2).  The sqr1 length
update mirrors v2.rs:277-287: `l` is raised to `p − 1` only when the
previously stored sequence is shorter, and written back unchanged
otherwise.  The slot write passes the source's literal global index
`p − 1` (v2.rs:293-310): positions 1-6 reach sqr3 in range, but positions
7-12 pass indices 6-11 to the 6-slot sqr2 bank and positions 13-16 pass
12-15 to the 4-slot sqr1 fields — out of range, a register-layer panic
after the length write (the sibling bulk path at v2.rs:329-337
re-enumerates each bank from zero).  The GPIO analog-mode call touches no
ADC register.  The final per-channel sample-time write happens after the
power state is restored, as in the source. -/
def set_sample_sequence (p ch : Nat) (st : SampleTime) (s : AdcRegs) : Option AdcRegs :=
  let was_on := is_on s
  let s1 := if was_on then s else start_adc s
  let s2 := { s1 with l := if s1.l + 1 < p then p - 1 else s1.l }
  let w :=
    if p ≤ 6 then sqr3_set_sq (p - 1) ch s2
    else if p ≤ 12 then sqr2_set_sq (p - 1) ch s2
    else sqr1_set_sq (p - 1) ch s2
  match w with
  | none => none
  | some s3 =>
    let s4 := if was_on then s3 else stop_adc s3
    some (set_channels_sample_time [ch] st s4)

/-- One bank-filling loop of `set_channel_sample_sequence` (v2.rs:329-337):
writes the listed channel ids at indices 0, 1, ... of a bank. -/
def write_sq (bank : Nat → Nat) (chs : List Nat) : Nat → Nat :=
  (chs.enum).foldl (fun acc ic => Function.update acc ic.1 ic.2) bank

/-- `Adc::set_channel_sample_sequence` (v2.rs:319-342): asserts `len ≤ 8`
(panic otherwise), powers the peripheral on if it was off, writes the
length field as `len − 1` — a `usize` subtraction, checked: the empty list
underflows, a panic, before any slot is written — then distributes the ids
over the sqr3/sqr2/sqr1 banks taking at most 6, 6 and 4, and restores the
prior power state. -/
def set_channel_sample_sequence (seq : List Nat) (s : AdcRegs) : Option AdcRegs :=
  if 8 < seq.length then none
  else
    let was_on := is_on s
    let s1 := if was_on then s else start_adc s
    if seq.length = 0 then none
    else
      let s2 := { s1 with l := seq.length - 1 }
      let s3 := { s2 with
        sqr3_sq := write_sq s2.sqr3_sq (seq.take 6),
        sqr2_sq := write_sq s2.sqr2_sq ((seq.drop 6).take 6),
        sqr1_sq := write_sq s2.sqr1_sq ((seq.drop 12).take 4) }
      some (if was_on then s3 else stop_adc s3)

/-- Entry step of `start_read_continuous` (v2.rs:440-445): the source's
ADON := false write is guarded by `if !was_on` — it fires only when the
peripheral was NOT already on. -/
def start_read_continuous_entry (s : AdcRegs) : AdcRegs :=
  if is_on s then s else { s with adon := false }

/-- cr1 step of `start_read_continuous` (v2.rs:447-451). -/
def start_read_continuous_cr1 (s : AdcRegs) : AdcRegs :=
  { s with scan := true, discen := false, eocie := true }

/-- cr2 step of `start_read_continuous` (v2.rs:453-459). -/
def start_read_continuous_cr2 (s : AdcRegs) : AdcRegs :=
  { s with
    cont := true
    swstart := false
    dma := true
    dds_continuous := true
    eocs_each := true }

/-- `Adc::start_read_continuous` (v2.rs:417-469), register effects.  The
DMA transfer construction binds an external collaborator and touches no ADC
register; the final cr2 write (v2.rs:462-465) sets ADON and SWSTART. -/
def start_read_continuous (s : AdcRegs) : AdcRegs :=
  let s1 := start_read_continuous_entry s
  let s2 := start_read_continuous_cr1 s1
  let s3 := start_read_continuous_cr2 s2
  { s3 with adon := true, swstart := true }

/-- `Adc::stop_continuous_conversion` (v2.rs:535-546).  The first line is a
cr2 `write` (not `modify`): every modelled cr2 field is reset, with ADON
false.  The trailing busy-wait re-reads ADON, which this model — where a
register read returns the last written value — observes as already false,
so the loop exits at once. -/
def stop_continuous_conversion (s : AdcRegs) : AdcRegs :=
  let s1 := { s with
    adon := false
    swstart := false
    cont := false
    dma := false
    dds_continuous := false
    eocs_each := false }
  let s2 := { s1 with swstart := false, dma := false }
  { s2 with eocie := false }

/-- Claim C1 (code bug): `vdda_uv` cannot return 3,000,000 for
referenceCode = measuredCode = 4095 — the `u32` product
`3,000,000 * 4095 = 12,285,000,000` exceeds `2^32`, so the multiplication
overflows (a panic under overflow checks; a wrap to 3,695,065,408 and a
return of 902,335 µV without).  The same overflow hits the
measuredCode = 2048 case, and `vref_cal` is always `calibrated_value()
= 4095`, so every real call overflows. -/
theorem c1_vdda_uv_overflows :
    Calibration.vdda_uv ⟨Vref.calibrated_value, Vref.calibrated_value⟩ = none
    ∧ Calibration.vdda_uv ⟨Vref.calibrated_value, 2048⟩ = none
    ∧ u32Bound ≤ CALIBRATION_UV * Vref.calibrated_value
    ∧ CALIBRATION_UV * Vref.calibrated_value % u32Bound / 4095 = 902335 := by
  decide

/-- Claim C2 (counterexample): the claim fails on the code three ways.
At 290 MHz the code panics (`raw_div = 8`) instead of selecting Div8; at
72 MHz the code selects Div4 even though 72 MHz / 2 = 36 MHz ≤ max, so the
smallest qualifying divisor would be 2; at 288 MHz the code panics even
though 288 MHz / 8 = 36 MHz ≤ max, so the stated abort condition
"busClock/8 > max" does not hold there. -/
theorem c2_prescaler_counterexample :
    Prescaler.from_pclk2 290000000 = none
    ∧ Prescaler.from_pclk2 72000000 = some .Div4
    ∧ 72000000 / 2 ≤ MAX_FREQUENCY
    ∧ Prescaler.from_pclk2 288000000 = none
    ∧ 288000000 / 8 ≤ MAX_FREQUENCY := by
  decide

/-- Claim C2 (amended): `from_pclk2` selects the smallest divisor
`d ∈ {2,4,6,8}` with `busClock < d * max` — strictly below, so Div2 for
`freq < 2*max`, Div4 for `freq < 4*max`, Div6 for `freq < 6*max`, Div8 for
`freq < 8*max` — and panics exactly when `freq ≥ 8 * max`.  For the 36 MHz
maximum, 30/60/130 MHz select divisors 2/2/4, and 290 MHz panics. -/
theorem c2_prescaler_thresholds :
    (∀ freq : Nat, Prescaler.from_pclk2 freq = prescalerSpec freq)
    ∧ Prescaler.from_pclk2 30000000 = some .Div2
    ∧ Prescaler.from_pclk2 60000000 = some .Div2
    ∧ Prescaler.from_pclk2 130000000 = some .Div4
    ∧ Prescaler.from_pclk2 290000000 = none := by
  refine ⟨?_, by decide, by decide, by decide, by decide⟩
  intro freq
  simp only [Prescaler.from_pclk2, prescalerSpec, MAX_FREQUENCY]
  split_ifs <;> first | rfl | omega

/-- Claim C3 (counterexample): `cal_uv` divides before multiplying, so it
does not equal `raw × vdda_uv() / resolutionMaxCode`.  With the calibration
`(1, 1)` the derived supply is exactly 3,000,000 µV, and
`cal_uv(2048, 12-bit)` returns `(3,000,000 / 4095) * 2048 = 1,499,136`,
while the claimed formula gives `2048 * 3,000,000 / 4095 = 1,500,366` and
the claimed numeral is 1,501,831 — all three differ. -/
theorem c3_cal_uv_counterexample :
    Calibration.vdda_uv ⟨1, 1⟩ = some 3000000
    ∧ Calibration.cal_uv ⟨1, 1⟩ 2048 .TwelveBit = some 1499136
    ∧ 2048 * 3000000 / Resolution.to_max_count .TwelveBit = 1500366
    ∧ (1499136 : Nat) ≠ 1500366
    ∧ (1499136 : Nat) ≠ 1501831 := by
  decide

/-- Claim C3 (amended): `cal_uv(raw, resolution)` equals
`(vdda_uv() / resolutionMaxCode) × raw` — division before multiplication;
in particular, under a derived supply of 3,000,000 µV and 12-bit resolution
it returns `(3,000,000 / 4095) × raw = 732 × raw`, so
`cal_uv(2048, 12-bit) = 1,499,136 µV`. -/
theorem c3_cal_uv_division_first (c : Calibration) (raw : Nat) (hraw : raw < 65536)
    (hv : c.vdda_uv = some 3000000) :
    c.cal_uv raw .TwelveBit = some (732 * raw) := by
  unfold Calibration.cal_uv
  rw [hv]
  dsimp only []
  have h1 : (3000000 : Nat) / Resolution.to_max_count .TwelveBit = 732 := by decide
  rw [h1]
  have h2 : ¬ (u32Bound ≤ 732 * raw) := by
    unfold u32Bound
    omega
  rw [if_neg h2, Nat.mul_comm]

/-- Witness for C3's amended theorem at the calibration `(1, 1)` and
raw = 2048. -/
theorem c3_cal_uv_division_first_witness :
    (2048 : Nat) < 65536
    ∧ Calibration.vdda_uv ⟨1, 1⟩ = some 3000000
    ∧ Calibration.cal_uv ⟨1, 1⟩ 2048 .TwelveBit = some (732 * 2048) :=
  ⟨by decide, by decide, c3_cal_uv_division_first ⟨1, 1⟩ 2048 (by decide) (by decide)⟩

/-- Claim C4: round-trip round-up.  Part one: for every (resolution,
sampleTime) pair, with the peripheral's resolution equal to that resolution,
`sample_time_for_us (us_for_cfg resolution sampleTime)` succeeds and returns
a SampleTime whose clock cost is at least the original's.  Part two:
whenever `sample_time_for_us` returns, its result is minimal among the
enumerated SampleTimes whose cost covers the required sample-phase clocks.
Part three: the result either covers the required clocks or is the default
480-cycle class (chosen when no enumerated duration suffices). -/
theorem c4_sample_time_round_up :
    (∀ (res : Resolution) (st : SampleTime),
      (sample_time_for_us res (us_for_cfg res st)).isSome = true
      ∧ get_sample_time_clks st
          ≤ get_sample_time_clks ((sample_time_for_us res (us_for_cfg res st)).getD .Cycles3))
    ∧ (∀ (res : Resolution) (us : Nat) (t' : SampleTime),
        sample_time_for_us res us = some t' →
        ∀ t : SampleTime,
          us * ADC_FREQ / 1000000 - get_res_clks res ≤ get_sample_time_clks t →
          get_sample_time_clks t' ≤ get_sample_time_clks t)
    ∧ (∀ (res : Resolution) (us : Nat) (t' : SampleTime),
        sample_time_for_us res us = some t' →
        us * ADC_FREQ / 1000000 - get_res_clks res ≤ get_sample_time_clks t'
        ∨ t' = .Cycles480) := by
  refine ⟨?_, ?_, ?_⟩
  · intro res st
    cases res <;> cases st <;> decide
  · intro res us t' h t hcov
    unfold sample_time_for_us at h
    split_ifs at h
    simp only [Option.some.injEq] at h
    subst h
    split_ifs <;> cases t <;> simp only [get_sample_time_clks] at hcov ⊢ <;> omega
  · intro res us t' h
    unfold sample_time_for_us at h
    split_ifs at h
    simp only [Option.some.injEq] at h
    subst h
    split_ifs with h1 h2 h3 h4 h5 h6 h7 <;>
      first
        | exact Or.inl (by simp only [get_sample_time_clks]; omega)
        | exact Or.inr rfl

/-- Witness for C4's minimality part at `res = TwelveBit`, `us = 10`:
`10 µs` at 16 MHz needs `160 − 12 = 148` sample clocks, so `Cycles480` is
selected and is no costlier than any covering class. -/
theorem c4_sample_time_round_up_witness :
    sample_time_for_us .TwelveBit 10 = some .Cycles480
    ∧ get_sample_time_clks .Cycles480 ≤ get_sample_time_clks .Cycles480 :=
  ⟨by decide,
    c4_sample_time_round_up.2.1 .TwelveBit 10 .Cycles480 (by decide) .Cycles480 (by decide)⟩

/-- Claim C5 (counterexample): the claim says a peripheral that was enabled
at entry is disabled first, but the source guards its ADON := false write
with `if !was_on`: starting `start_read_continuous` from a concrete enabled
state, the entry step leaves the enable bit set. -/
theorem c5_start_read_continuous_counterexample :
    ({ initRegs with adon := true } : AdcRegs).adon = true
    ∧ (start_read_continuous_entry { initRegs with adon := true }).adon = true := by
  constructor
  · rfl
  · rfl

/-- Claim C5 (amended): the entry step never changes the enable bit — an
enabled peripheral is NOT disabled first; the guarded ADON := false write
fires only when the peripheral was already off, where it is a no-op.  The
call then sets scan mode on, discontinuous mode off, the end-of-conversion
interrupt on, continuous-conversion mode, DMA requests on with continuous
DMA request generation and end-of-conversion-per-conversion mode; SWSTART
is clear after the configuration writes, and the final write leaves the
enable and software-start bits both set. -/
theorem c5_start_read_continuous_effects (s : AdcRegs) :
    (start_read_continuous_entry s).adon = s.adon
    ∧ (start_read_continuous_cr2 (start_read_continuous_cr1
        (start_read_continuous_entry s))).swstart = false
    ∧ (start_read_continuous s).adon = true
    ∧ (start_read_continuous s).swstart = true
    ∧ (start_read_continuous s).scan = true
    ∧ (start_read_continuous s).discen = false
    ∧ (start_read_continuous s).eocie = true
    ∧ (start_read_continuous s).cont = true
    ∧ (start_read_continuous s).dma = true
    ∧ (start_read_continuous s).dds_continuous = true
    ∧ (start_read_continuous s).eocs_each = true := by
  unfold start_read_continuous start_read_continuous_entry
    start_read_continuous_cr1 start_read_continuous_cr2 is_on
  cases h : s.adon <;> simp [h]

/-- For positions 1-6 — the ones whose slot index stays inside the sqr3
bank — `set_sample_sequence` completes, and the stored `l` field comes out
as the source's length update computes it. -/
theorem set_sample_sequence_low_pos (s : AdcRegs) (p ch : Nat) (st : SampleTime)
    (h1 : 1 ≤ p) (h6 : p ≤ 6) :
    ∃ s', set_sample_sequence p ch st s = some s'
      ∧ s'.l = if s.l + 1 < p then p - 1 else s.l := by
  have hlt : p - 1 < 6 := by omega
  unfold set_sample_sequence sqr3_set_sq set_channels_sample_time
    set_channel_sample_time is_on start_adc stop_adc
  cases ha : s.adon <;> by_cases hch : ch ≤ 9 <;>
    simp [ha, hch, h6, hlt]

/-- Claim C6 (code bug): the length update of `set_sample_sequence` never
lowers the stored field, but the claimed post-state "after the call the
stored length is max(L, p)" is unreachable for positions 7-16: the source
passes the global slot index `p − 1` into the 6-slot sqr2 bank (positions
7-12, indices 6-11) or the 4-slot sqr1 fields (positions 13-16, indices
12-15), out of the register layer's slot bound — the sibling bulk path at
v2.rs:329-337 re-enumerates each bank from zero, so this indexing is a
slip — and the call panics after the length write, never returning.  For
positions 1-6 the call completes with stored length exactly `max(L, p)`,
and the claim's 3-then-1 instance holds: the stored length stays at least
3, never 1. -/
theorem c6_sequence_slot_panic :
    set_sample_sequence 7 5 .Cycles28 initRegs = none
    ∧ (∀ (s : AdcRegs) (p ch : Nat) (st : SampleTime), 7 ≤ p → p ≤ 16 →
        set_sample_sequence p ch st s = none)
    ∧ (∀ (s : AdcRegs) (p ch : Nat) (st : SampleTime), 1 ≤ p → p ≤ 6 →
        ∃ s', set_sample_sequence p ch st s = some s'
          ∧ s'.l + 1 = max (s.l + 1) p)
    ∧ (∀ (s s' s'' : AdcRegs) (c1 c2 : Nat) (t1 t2 : SampleTime),
        set_sample_sequence 3 c1 t1 s = some s' →
        set_sample_sequence 1 c2 t2 s' = some s'' →
        3 ≤ s''.l + 1) := by
  refine ⟨rfl, ?_, ?_, ?_⟩
  · intro s p ch st h7 h16
    have hp6 : ¬ (p ≤ 6) := by omega
    unfold set_sample_sequence sqr2_set_sq sqr1_set_sq
    by_cases h12 : p ≤ 12
    · have hn : ¬ (p - 1 < 6) := by omega
      simp [hp6, h12, hn]
    · have hn : ¬ (p - 1 < 4) := by omega
      simp [hp6, h12, hn]
  · intro s p ch st h1 h6
    obtain ⟨s', hs', hl⟩ := set_sample_sequence_low_pos s p ch st h1 h6
    refine ⟨s', hs', ?_⟩
    rw [hl]
    split_ifs <;> omega
  · intro s s' s'' c1 c2 t1 t2 h3 h1
    obtain ⟨u, hu, hul⟩ := set_sample_sequence_low_pos s 3 c1 t1 (by omega) (by omega)
    rw [h3] at hu
    injection hu with hu
    obtain ⟨v, hv, hvl⟩ := set_sample_sequence_low_pos s' 1 c2 t2 (by omega) (by omega)
    rw [h1] at hv
    injection hv with hv
    rw [← hv] at hvl
    rw [← hu] at hul
    split_ifs at hul hvl <;> omega

/-- Witness for C6's low-position part at position 3, channel 5, on the
reset state. -/
theorem c6_sequence_slot_panic_witness :
    (1 ≤ 3 ∧ 3 ≤ 6)
    ∧ ∃ s', set_sample_sequence 3 5 .Cycles28 initRegs = some s'
        ∧ s'.l + 1 = max (initRegs.l + 1) 3 :=
  ⟨⟨by decide, by decide⟩,
    c6_sequence_slot_panic.2.2.1 initRegs 3 5 .Cycles28 (by decide) (by decide)⟩

/-- Claim C7: `set_sample_time` on a channel in the covered range 0-16.
If the programmed duration already equals the requested one the call
returns the state unchanged; whatever state comes back, its enable bit
equals the enable bit before the call; the state the banked write is
applied to has the enable bit clear (the peripheral is powered off during
the write); and on a real change the new duration lands in the correct bank
— smpr2 for channels 0-9 at index `ch`, smpr1 for 10-16 at index `ch − 10`
— leaving every other slot of that bank and the whole other bank
untouched. -/
theorem c7_set_sample_time (s : AdcRegs) (ch : Nat) (st : SampleTime) (hch : ch ≤ 16) :
    (get_channel_sample_time ch s = some st → set_sample_time ch st s = some s)
    ∧ (∀ s', set_sample_time ch st s = some s' → s'.adon = s.adon)
    ∧ (if is_on s then stop_adc s else s).adon = false
    ∧ (get_channel_sample_time ch s ≠ some st →
        ∃ s', set_sample_time ch st s = some s'
          ∧ (ch ≤ 9 →
              s'.smpr2 ch = st
              ∧ (∀ j, j ≠ ch → s'.smpr2 j = s.smpr2 j)
              ∧ s'.smpr1 = s.smpr1)
          ∧ (10 ≤ ch →
              s'.smpr1 (ch - 10) = st
              ∧ (∀ j, j ≠ ch - 10 → s'.smpr1 j = s.smpr1 j)
              ∧ s'.smpr2 = s.smpr2)) := by
  have hadon : (if is_on s then stop_adc s else s).adon = false := by
    unfold is_on stop_adc
    cases h : s.adon <;> simp [h]
  obtain ⟨cur, hcur⟩ : ∃ cur, get_channel_sample_time ch s = some cur := by
    unfold get_channel_sample_time
    by_cases h1 : ch ≤ 9
    · rw [if_pos h1]
      exact ⟨_, rfl⟩
    · rw [if_neg h1, if_pos (show ch ≤ 16 from hch)]
      exact ⟨_, rfl⟩
  refine ⟨?_, ?_, hadon, ?_⟩
  · intro h
    unfold set_sample_time
    rw [h]
    dsimp only []
    rw [if_pos rfl]
  · intro s' h
    unfold set_sample_time at h
    rw [hcur] at h
    dsimp only [] at h
    by_cases he : cur = st
    · rw [if_pos he] at h
      injection h with h
      subst h
      rfl
    · rw [if_neg he] at h
      injection h with h
      subst h
      unfold is_on start_adc stop_adc set_channel_sample_time
      cases ha : s.adon <;> by_cases h9 : ch ≤ 9 <;> simp [ha, h9]
  · intro hne
    have he : ¬ (cur = st) := by
      intro hh
      exact hne (hh ▸ hcur)
    unfold set_sample_time
    rw [hcur]
    dsimp only []
    rw [if_neg he]
    refine ⟨_, rfl, ?_, ?_⟩
    · intro h9
      unfold is_on start_adc stop_adc set_channel_sample_time
      cases ha : s.adon <;>
        simp [ha, h9, Function.update_same] <;>
        exact fun j hj => Function.update_noteq hj _ _
    · intro h10
      have h9 : ¬ (ch ≤ 9) := by omega
      unfold is_on start_adc stop_adc set_channel_sample_time
      cases ha : s.adon <;>
        simp [ha, h9, Function.update_same] <;>
        exact fun j hj => Function.update_noteq hj _ _

/-- Witness for C7 at channel 5 on the reset state. -/
theorem c7_set_sample_time_witness :
    (5 : Nat) ≤ 16 ∧ (if is_on initRegs then stop_adc initRegs else initRegs).adon = false :=
  ⟨by decide, (c7_set_sample_time initRegs 5 .Cycles28 (by decide)).2.2.1⟩

/-- Claim C8: `stop_continuous_conversion` leaves the enable, software-start
and DMA-enable bits clear and the end-of-conversion interrupt disabled, and
the enable bit reads back as off at return; a subsequent
`start_read_continuous` call succeeds and re-enters the Running state — the
enable, software-start, continuous, DMA, scan and EOC-interrupt bits all
set again. -/
theorem c8_stop_continuous_conversion (s : AdcRegs) :
    (stop_continuous_conversion s).adon = false
    ∧ (stop_continuous_conversion s).swstart = false
    ∧ (stop_continuous_conversion s).dma = false
    ∧ (stop_continuous_conversion s).eocie = false
    ∧ (start_read_continuous (stop_continuous_conversion s)).adon = true
    ∧ (start_read_continuous (stop_continuous_conversion s)).swstart = true
    ∧ (start_read_continuous (stop_continuous_conversion s)).cont = true
    ∧ (start_read_continuous (stop_continuous_conversion s)).dma = true
    ∧ (start_read_continuous (stop_continuous_conversion s)).scan = true
    ∧ (start_read_continuous (stop_continuous_conversion s)).eocie = true := by
  unfold stop_continuous_conversion start_read_continuous
    start_read_continuous_entry start_read_continuous_cr1 start_read_continuous_cr2 is_on
  simp

/-- Claim C9: the per-channel sample-time lookup covers only ids 0-16, so
for the internal channels — `VrefInt::channel` = 17 and `Vbat::channel`
= 18 — `get_channel_sample_time` panics, and therefore every
`set_sample_time` call on them aborts before any reprogramming, for every
register state and requested duration. -/
theorem c9_internal_channels_panic (s : AdcRegs) (st : SampleTime) :
    get_channel_sample_time VrefInt.channel s = none
    ∧ get_channel_sample_time Vbat.channel s = none
    ∧ set_sample_time VrefInt.channel st s = none
    ∧ set_sample_time Vbat.channel st s = none := by
  refine ⟨rfl, rfl, ?_, ?_⟩ <;> (unfold set_sample_time; rfl)

/-- Claim C10: `set_channel_sample_sequence` requires a non-empty list.
Its assertion only bounds the length above by 8, and the length-field write
computes `len − 1` in `usize`: every list with 1 ≤ length ≤ 8 completes
normally, while the empty list panics on the arithmetic underflow before
any channel slot is written. -/
theorem c10_sequence_length_bounds (seq : List Nat) (s : AdcRegs) :
    (seq.length = 0 → set_channel_sample_sequence seq s = none)
    ∧ (1 ≤ seq.length → seq.length ≤ 8 →
        (set_channel_sample_sequence seq s).isSome = true) := by
  constructor
  · intro h
    simp only [set_channel_sample_sequence]
    rw [if_neg (by omega), if_pos h]
  · intro h1 h2
    simp only [set_channel_sample_sequence]
    rw [if_neg (by omega), if_neg (by omega)]
    rfl

/-- Witness for C10 with the one-element list `[3]` on the reset state. -/
theorem c10_sequence_length_bounds_witness :
    1 ≤ ([3] : List Nat).length ∧ ([3] : List Nat).length ≤ 8
    ∧ (set_channel_sample_sequence [3] initRegs).isSome = true :=
  ⟨by decide, by decide,
    (c10_sequence_length_bounds [3] initRegs).2 (by decide) (by decide)⟩

end AdcV2
